import Mathlib

/-!
Shallow embedding of the huge_global_alloc crate (src/lib.rs, src/mmap.rs,
src/mmapper.rs).

Modelling conventions:
* usize is modelled as Nat; arithmetic that can wrap in release-mode Rust is
  written with an explicit percent-USIZE where a claim quantifies over inputs
  large enough for the wrap to matter (calc_alloc_size, add_missed).  Sums in
  the statistics fold are left unwrapped: they are bounded by the process
  address space.
* Raw pointers are Nat; the null pointer is 0.
* The OS primitives (mmap, mremap, munmap) and the system allocator are
  fallible external collaborators; their outcomes are passed in explicitly as
  oracle arguments.  munmap failure aborts the process and is not modelled as
  a branch.
* Fatal paths (alloc_error / handle_alloc_error, which abort the process) are
  modelled by returning none.
* The registry's lazily created Option of HashMap keyed by usize is modelled
  as an association list; the absent map and the empty map behave identically
  for every operation.  Calls to the system allocator are recorded as SysEvent
  values so dispatch decisions are observable.  The byte copies performed with
  copy_nonoverlapping are recorded as (source, destination, length) triples.
  Segments removed from the registry and dropped (hence munmapped) are
  recorded in an unmapped list.
* The f64 display field missed_mb of the stats snapshot is represented by the
  two integer counters it is computed from (missed_mb whole megabytes and
  missed_bytes remainder); no claim concerns its floating-point value.
-/

/-- Modulus of the 64-bit usize type. -/
def USIZE : Nat := 2 ^ 64

/-- One megabyte, the unit used by the missed-byte accounting. -/
def MB : Nat := 1024 * 1024

/-- The fixed huge page granularity (2 MiB) from MMap::map_2mb. -/
def HUGE_PAGE_SIZE : Nat := 2 * 1024 * 1024

/-- isize::MAX, the size bound enforced by Layout::from_size_align. -/
def ISIZE_MAX : Nat := 2 ^ 63 - 1

/-- Rust std::alloc::Layout: a requested size and alignment. -/
structure Layout where
  size : Nat
  align : Nat
deriving DecidableEq, Repr

/-- Layout::from_size_align: fails unless align is a nonzero power of two and
size, rounded up to align, stays within isize::MAX. -/
def Layout.from_size_align (size align : Nat) : Option Layout :=
  if align ≠ 0 ∧ align &&& (align - 1) = 0 ∧ size ≤ ISIZE_MAX - (align - 1) then
    some ⟨size, align⟩
  else
    none

/-- MMap (src/mmap.rs): descriptor of one anonymous memory mapped segment. -/
structure MMap where
  ptr : Nat
  layout : Layout
  alloc_size : Nat
  page_size : Nat
deriving DecidableEq, Repr

/-- MMap::calc_alloc_size: whole pages needed for the requested size, written
with release-mode wrapping at every usize operation that can overflow. -/
def MMap.calc_alloc_size (size page_size : Nat) : Nat :=
  (((((size + (USIZE - 1)) % USIZE) / page_size + 1) % USIZE) * page_size) % USIZE

/-- MMap::size: the requested (layout) size. -/
def MMap.size (m : MMap) : Nat := m.layout.size

/-- MMap::is_default_page_size, relative to the platform default page size. -/
def MMap.is_default_page_size (dps : Nat) (m : MMap) : Bool :=
  m.page_size == dps

/-- Oracle for MMap::new: the combined outcome of the huge-page attempt and
the default-page fallback (mmap with MAP_HUGETLB first, plain mmap second). -/
inductive MapOutcome where
  | hugeAt (ptr : Nat)
  | defaultAt (ptr : Nat)
  | failed
deriving DecidableEq, Repr

/-- MMap::new: a 2 MiB page mapping is tried first; if that fails a default
page size mapping is tried; none models failure of both (the caller treats it
as fatal). -/
def MMap.new (dps : Nat) (layout : Layout) (o : MapOutcome) : Option MMap :=
  match o with
  | .hugeAt p =>
      some ⟨p, layout, MMap.calc_alloc_size layout.size HUGE_PAGE_SIZE, HUGE_PAGE_SIZE⟩
  | .defaultAt p =>
      some ⟨p, layout, MMap.calc_alloc_size layout.size dps, dps⟩
  | .failed => none

/-- Result of MMap::remap: the (possibly updated) descriptor, the boolean the
function returns, and whether the mremap OS primitive was invoked. -/
structure RemapResult where
  seg : MMap
  ok : Bool
  mremap_called : Bool
deriving DecidableEq, Repr

/-- MMap::remap: if the new whole-page size differs from the current one, ask
the OS to remap (oracle os: some newPtr on success, none on failure); on
success update ptr and alloc_size; whenever the overall outcome is ok the
requested layout is updated. -/
def MMap.remap (m : MMap) (new_layout : Layout) (os : Option Nat) : RemapResult :=
  let new_alloc_size := MMap.calc_alloc_size new_layout.size m.page_size
  if m.alloc_size ≠ new_alloc_size then
    match os with
    | some p =>
        ⟨{ m with ptr := p, alloc_size := new_alloc_size, layout := new_layout }, true, true⟩
    | none => ⟨m, false, true⟩
  else
    ⟨{ m with layout := new_layout }, true, false⟩

/-- MMapperStats (src/mmapper.rs): the registry's internal counters. -/
structure MMapperStats where
  missed_allocs : Nat
  missed_bytes : Nat
  missed_mb : Nat
  remaps_failed : Nat
deriving DecidableEq, Repr

/-- MMapperStats::new. -/
def MMapperStats.new : MMapperStats := ⟨0, 0, 0, 0⟩

/-- MMapper::add_missed acting on the counters: add the bytes, then move any
amount strictly above one megabyte into the whole-megabyte counter. -/
def MMapperStats.add_missed (s : MMapperStats) (bytes : Nat) : MMapperStats :=
  let missed_allocs := (s.missed_allocs + 1) % USIZE
  let missed_bytes := (s.missed_bytes + bytes) % USIZE
  if missed_bytes > MB then
    let mb := missed_bytes / MB
    { s with
        missed_allocs := missed_allocs
        missed_bytes := missed_bytes - mb * MB
        missed_mb := (s.missed_mb + mb) % USIZE }
  else
    { s with missed_allocs := missed_allocs, missed_bytes := missed_bytes }

/-- MMapper (src/mmapper.rs): the registry.  The HashMap from usize to MMap is
modelled as an association list with unique keys. -/
structure MMapper where
  ptr_map : List (Nat × MMap)
  stats : MMapperStats
deriving DecidableEq, Repr

/-- MMapper::new. -/
def MMapper.new : MMapper := ⟨[], MMapperStats.new⟩

/-- HashMap::get by key, on the association-list model. -/
def lookupPtr (k : Nat) : List (Nat × MMap) → Option MMap
  | [] => none
  | kv :: rest => if kv.1 = k then some kv.2 else lookupPtr k rest

/-- HashMap::remove of the (unique) entry with the given key, on the
association-list model. -/
def removeKey (k : Nat) : List (Nat × MMap) → List (Nat × MMap)
  | [] => []
  | kv :: rest => if kv.1 = k then rest else kv :: removeKey k rest

/-- MMapper::is_managed_ptr. -/
def MMapper.is_managed_ptr (m : MMapper) (ptr : Nat) : Bool :=
  (lookupPtr ptr m.ptr_map).isSome

/-- MMapper::map_remove: removes and returns the entry for ptr, if present. -/
def MMapper.map_remove (m : MMapper) (ptr : Nat) : Option MMap × MMapper :=
  match lookupPtr ptr m.ptr_map with
  | some mm => (some mm, { m with ptr_map := removeKey ptr m.ptr_map })
  | none => (none, m)

/-- MMapper::map_add: inserts keyed by the segment base pointer; an already
present key is a fatal invariant violation (none). -/
def MMapper.map_add (m : MMapper) (mm : MMap) : Option MMapper :=
  if (lookupPtr mm.ptr m.ptr_map).isSome then none
  else some { m with ptr_map := (mm.ptr, mm) :: m.ptr_map }

/-- MMapper::add_missed lifted to the registry state. -/
def MMapper.add_missed (m : MMapper) (bytes : Nat) : MMapper :=
  { m with stats := m.stats.add_missed bytes }

/-- Result of MMapper::alloc: returned pointer and updated registry. -/
structure MapperAllocResult where
  ret : Nat
  state : MMapper
deriving DecidableEq, Repr

/-- MMapper::alloc: create the mapping (fatal if both attempts fail), count a
missed allocation when it ended on the default page size, insert it, return
its base pointer. -/
def MMapper.alloc (dps : Nat) (m : MMapper) (layout : Layout) (o : MapOutcome) :
    Option MapperAllocResult :=
  let size := layout.size
  match MMap.new dps layout o with
  | none => none
  | some mmap =>
    let m1 := if mmap.is_default_page_size dps then m.add_missed size else m
    let ptr := mmap.ptr
    match m1.map_add mmap with
    | none => none
    | some m2 => some ⟨ptr, m2⟩

/-- Result of MMapper::dealloc: whether an entry was removed, the updated
registry, and the base pointers of segments dropped (hence munmapped). -/
structure MapperDeallocResult where
  removed : Bool
  state : MMapper
  unmapped : List Nat
deriving DecidableEq, Repr

/-- MMapper::dealloc: remove the entry if present; the removed MMap is dropped
which unmaps its region. -/
def MMapper.dealloc (m : MMapper) (ptr : Nat) : MapperDeallocResult :=
  match m.map_remove ptr with
  | (some mm, m1) => ⟨true, m1, [mm.ptr]⟩
  | (none, m1) => ⟨false, m1, []⟩

/-- Result of MMapper::realloc: returned pointer, updated registry, the byte
copy performed if any (source, destination, length), and the base pointers of
segments dropped (hence munmapped). -/
structure MapperReallocResult where
  ret : Nat
  state : MMapper
  copied : Option (Nat × Nat × Nat)
  unmapped : List Nat
deriving DecidableEq, Repr

/-- MMapper::realloc: remove the entry (absence is fatal), try the in-place
remap; on success adjust missed accounting and re-insert; on failure bump the
failed-remap counter, allocate a fresh segment, copy old_size bytes from the
old segment, and drop (unmap) the old segment. -/
def MMapper.realloc (dps : Nat) (m : MMapper) (ptr : Nat) (layout : Layout)
    (osRemap : Option Nat) (osMap : MapOutcome) : Option MapperReallocResult :=
  let new_size := layout.size
  match m.map_remove ptr with
  | (none, _) => none
  | (some mmap, m1) =>
    let was_default := mmap.is_default_page_size dps
    let old_size := mmap.size
    let r := mmap.remap layout osRemap
    if r.ok then
      let ptr2 := r.seg.ptr
      let m2 :=
        if was_default then
          if new_size > old_size then m1.add_missed (new_size - old_size) else m1
        else if r.seg.is_default_page_size dps then m1.add_missed new_size
        else m1
      match m2.map_add r.seg with
      | none => none
      | some m3 => some ⟨ptr2, m3, none, []⟩
    else
      let m2 := { m1 with stats :=
        { m1.stats with remaps_failed := (m1.stats.remaps_failed + 1) % USIZE } }
      match MMapper.alloc dps m2 layout osMap with
      | none => none
      | some ar => some ⟨ar.ret, ar.state, some (mmap.ptr, ar.ret, old_size), [mmap.ptr]⟩

/-- HugeGlobalAllocatorStats (src/mmapper.rs): the value snapshot returned by
stats().  The f64 field missed_mb of the source is carried as the two integer
counters it is derived from. -/
structure HugeGlobalAllocatorStats where
  alloc : Nat
  mapped : Nat
  segments : Nat
  default_alloc : Nat
  default_mapped : Nat
  default_segments : Nat
  huge_alloc : Nat
  huge_mapped : Nat
  huge_segments : Nat
  missed_allocs : Nat
  missed_mb_whole : Nat
  missed_bytes_rem : Nat
  remaps_failed : Nat
  efficiency : Nat
deriving DecidableEq, Repr

/-- HugeGlobalAllocatorStats::default: all fields zero. -/
def HugeGlobalAllocatorStats.default : HugeGlobalAllocatorStats :=
  ⟨0, 0, 0, 0, 0, 0, 0, 0, 0, 0, 0, 0, 0, 0⟩

/-- One iteration of the stats() loop over the registry's segments. -/
def statsAccum (dps : Nat) (s : HugeGlobalAllocatorStats) (mm : MMap) :
    HugeGlobalAllocatorStats :=
  let s := { s with
    alloc := s.alloc + mm.size
    mapped := s.mapped + mm.alloc_size
    segments := s.segments + 1 }
  if mm.is_default_page_size dps then
    { s with
        default_alloc := s.default_alloc + mm.size
        default_mapped := s.default_mapped + mm.alloc_size
        default_segments := s.default_segments + 1 }
  else
    { s with
        huge_alloc := s.huge_alloc + mm.size
        huge_mapped := s.huge_mapped + mm.alloc_size
        huge_segments := s.huge_segments + 1 }

/-- The stats() loop over all live segments, starting from the default
snapshot. -/
def statsOf (dps : Nat) (l : List (Nat × MMap)) : HugeGlobalAllocatorStats :=
  l.foldl (fun s kv => statsAccum dps s kv.2) HugeGlobalAllocatorStats.default

/-- MMapper::stats: fold the live segments, fold in the counters, then
compute the efficiency percentage (100 when nothing is mapped). -/
def MMapper.stats_snapshot (dps : Nat) (m : MMapper) : HugeGlobalAllocatorStats :=
  let out := statsOf dps m.ptr_map
  let out := { out with
    missed_allocs := m.stats.missed_allocs
    missed_mb_whole := m.stats.missed_mb
    missed_bytes_rem := m.stats.missed_bytes
    remaps_failed := m.stats.remaps_failed }
  if out.mapped = 0 then
    { out with efficiency := 100 }
  else
    { out with efficiency := out.alloc * 100 / out.mapped }

/-- HugeGlobalAllocator (src/lib.rs): the facade, holding the registry and the
construction-time threshold. -/
structure HugeGlobalAllocator where
  mapper : MMapper
  threshold : Nat
deriving DecidableEq, Repr

/-- HugeGlobalAllocator::new: the const constructor asserts that the threshold
is at least one megabyte; a smaller threshold aborts (none). -/
def HugeGlobalAllocator.new (threshold : Nat) : Option HugeGlobalAllocator :=
  if threshold ≥ 1024 * 1024 then some ⟨MMapper.new, threshold⟩ else none

/-- HugeGlobalAllocator::stats: pass-through snapshot from the registry. -/
def HugeGlobalAllocator.stats (dps : Nat) (a : HugeGlobalAllocator) :
    HugeGlobalAllocatorStats :=
  MMapper.stats_snapshot dps a.mapper

/-- Calls made to the system allocator, recorded so that dispatch decisions of
the facade are observable. -/
inductive SysEvent where
  | alloc (layout : Layout)
  | allocZeroed (layout : Layout)
  | dealloc (ptr : Nat) (layout : Layout)
  | realloc (old_ptr : Nat) (old_layout : Layout) (new_size : Nat)
deriving DecidableEq, Repr

/-- Result of a facade operation: the returned pointer, the new allocator
state, the system-allocator calls made, the base pointers of registry
segments unmapped, and the byte copy performed if any (source, destination,
length). -/
structure FacadeResult where
  ret : Nat
  state : HugeGlobalAllocator
  sysEvents : List SysEvent
  unmapped : List Nat
  copied : Option (Nat × Nat × Nat)
deriving DecidableEq, Repr

/-- GlobalAlloc::alloc for HugeGlobalAllocator: sizes at or above the
threshold go to the registry (fatal mapping failure is none); smaller sizes go
to the system allocator, whose returned pointer is the oracle sysRet. -/
def HugeGlobalAllocator.alloc (dps : Nat) (a : HugeGlobalAllocator) (layout : Layout)
    (osMap : MapOutcome) (sysRet : Nat) : Option FacadeResult :=
  let size := layout.size
  if size ≥ a.threshold then
    match MMapper.alloc dps a.mapper layout osMap with
    | none => none
    | some ar => some ⟨ar.ret, { a with mapper := ar.state }, [], [], none⟩
  else
    some ⟨sysRet, a, [SysEvent.alloc layout], [], none⟩

/-- GlobalAlloc::alloc_zeroed for HugeGlobalAllocator: the source delegates
unconditionally to self.alloc. -/
def HugeGlobalAllocator.alloc_zeroed (dps : Nat) (a : HugeGlobalAllocator)
    (layout : Layout) (osMap : MapOutcome) (sysRet : Nat) : Option FacadeResult :=
  HugeGlobalAllocator.alloc dps a layout osMap sysRet

/-- GlobalAlloc::dealloc for HugeGlobalAllocator: try the registry first; only
when the pointer was not managed forward to the system allocator. -/
def HugeGlobalAllocator.dealloc (a : HugeGlobalAllocator) (ptr : Nat) (layout : Layout) :
    FacadeResult :=
  let dr := MMapper.dealloc a.mapper ptr
  if !dr.removed then
    ⟨0, { a with mapper := dr.state }, [SysEvent.dealloc ptr layout], dr.unmapped, none⟩
  else
    ⟨0, { a with mapper := dr.state }, [], dr.unmapped, none⟩

/-- GlobalAlloc::realloc for HugeGlobalAllocator: build the new layout (fatal
if invalid) and branch four ways on (managed, new size meets threshold). -/
def HugeGlobalAllocator.realloc (dps : Nat) (a : HugeGlobalAllocator)
    (old_ptr : Nat) (old_layout : Layout) (new_size : Nat)
    (osRemap : Option Nat) (osMap : MapOutcome) (sysRet : Nat) : Option FacadeResult :=
  match Layout.from_size_align new_size old_layout.align with
  | none => none
  | some new_layout =>
    if a.mapper.is_managed_ptr old_ptr then
      if new_size ≥ a.threshold then
        match MMapper.realloc dps a.mapper old_ptr new_layout osRemap osMap with
        | none => none
        | some rr => some ⟨rr.ret, { a with mapper := rr.state }, [], rr.unmapped, rr.copied⟩
      else
        let new_ptr := sysRet
        let copied := if new_ptr ≠ 0 then some (old_ptr, new_ptr, new_size) else none
        let dr := MMapper.dealloc a.mapper old_ptr
        some ⟨new_ptr, { a with mapper := dr.state }, [SysEvent.alloc new_layout],
          dr.unmapped, copied⟩
    else
      if new_size ≥ a.threshold then
        match MMapper.alloc dps a.mapper new_layout osMap with
        | none => none
        | some ar =>
          let copied := if ar.ret ≠ 0 then some (old_ptr, ar.ret, old_layout.size) else none
          some ⟨ar.ret, { a with mapper := ar.state },
            [SysEvent.dealloc old_ptr old_layout], [], copied⟩
      else
        some ⟨sysRet, a, [SysEvent.realloc old_ptr old_layout new_size], [], none⟩

/-- Well-formedness of a segment descriptor: the invariants every segment
created by MMap::new or updated by MMap::remap satisfies in any reachable
state (nonzero requested size below the usize wrap region, nonzero page size,
and a mapped size computed by calc_alloc_size). -/
def MMap.wf (m : MMap) : Prop :=
  1 ≤ m.layout.size ∧ m.layout.size + m.page_size ≤ USIZE ∧ 1 ≤ m.page_size ∧
    m.alloc_size = MMap.calc_alloc_size m.layout.size m.page_size

instance (m : MMap) : Decidable m.wf := by
  unfold MMap.wf
  infer_instance

/-- For requested sizes in the range actually reachable (nonzero and clear of
the usize wrap region), calc_alloc_size is the familiar round-up to whole
pages and never under-covers the request. -/
theorem calc_alloc_size_spec (size page : Nat) (h1 : 1 ≤ size)
    (h2 : size + page ≤ USIZE) (h3 : 1 ≤ page) :
    MMap.calc_alloc_size size page = ((size - 1) / page + 1) * page ∧
      size ≤ MMap.calc_alloc_size size page := by
  have hU : USIZE = 18446744073709551616 := by norm_num [USIZE]
  rw [hU] at h2
  unfold MMap.calc_alloc_size
  rw [hU]
  have e1 : (size + (18446744073709551616 - 1)) % 18446744073709551616 = size - 1 := by
    omega
  rw [e1]
  have hdm := Nat.div_add_mod (size - 1) page
  have hml : (size - 1) % page < page := Nat.mod_lt _ (by omega)
  have hqs : (size - 1) / page ≤ size - 1 := Nat.div_le_self _ _
  have e2 : ((size - 1) / page + 1) % 18446744073709551616 = (size - 1) / page + 1 :=
    Nat.mod_eq_of_lt (by omega)
  rw [e2]
  have emul : ((size - 1) / page + 1) * page = page * ((size - 1) / page) + page := by
    ring
  have e3 : ((size - 1) / page + 1) * page % 18446744073709551616 =
      ((size - 1) / page + 1) * page := by
    apply Nat.mod_eq_of_lt
    omega
  rw [e3]
  exact ⟨rfl, by omega⟩

/-- A well-formed segment never maps less than its requested size. -/
theorem MMap.wf_size_le_alloc_size (m : MMap) (h : m.wf) : m.size ≤ m.alloc_size := by
  obtain ⟨h1, h2, h3, h4⟩ := h
  have := (calc_alloc_size_spec m.layout.size m.page_size h1 h2 h3).2
  rw [MMap.size, h4]
  exact this

/-- Each iteration of the stats fold adds exactly one to the segment count. -/
theorem statsAccum_segments (dps : Nat) (s : HugeGlobalAllocatorStats) (mm : MMap) :
    (statsAccum dps s mm).segments = s.segments + 1 := by
  simp only [statsAccum]
  split <;> rfl

/-- The stats fold counts exactly the segments of the list. -/
theorem statsFold_segments (dps : Nat) (l : List (Nat × MMap))
    (s : HugeGlobalAllocatorStats) :
    (l.foldl (fun s kv => statsAccum dps s kv.2) s).segments = s.segments + l.length := by
  induction l generalizing s with
  | nil => simp
  | cons kv rest ih =>
    rw [List.foldl_cons, ih, statsAccum_segments]
    simp
    omega

/-- The segment count of the stats loop equals the registry size. -/
theorem statsOf_segments (dps : Nat) (l : List (Nat × MMap)) :
    (statsOf dps l).segments = l.length := by
  unfold statsOf
  rw [statsFold_segments]
  simp [HugeGlobalAllocatorStats.default]

/-- The stats fold preserves the class-split accounting identities and the
mapped-covers-alloc inequality, provided every folded segment is
well-formed. -/
theorem statsFold_inv (dps : Nat) (l : List (Nat × MMap))
    (s : HugeGlobalAllocatorStats) (hwf : ∀ kv ∈ l, kv.2.wf)
    (h1 : s.default_segments + s.huge_segments = s.segments)
    (h2 : s.default_mapped + s.huge_mapped = s.mapped)
    (h3 : s.default_alloc + s.huge_alloc = s.alloc)
    (h4 : s.alloc ≤ s.mapped) :
    (l.foldl (fun s kv => statsAccum dps s kv.2) s).default_segments
        + (l.foldl (fun s kv => statsAccum dps s kv.2) s).huge_segments
      = (l.foldl (fun s kv => statsAccum dps s kv.2) s).segments ∧
    (l.foldl (fun s kv => statsAccum dps s kv.2) s).default_mapped
        + (l.foldl (fun s kv => statsAccum dps s kv.2) s).huge_mapped
      = (l.foldl (fun s kv => statsAccum dps s kv.2) s).mapped ∧
    (l.foldl (fun s kv => statsAccum dps s kv.2) s).default_alloc
        + (l.foldl (fun s kv => statsAccum dps s kv.2) s).huge_alloc
      = (l.foldl (fun s kv => statsAccum dps s kv.2) s).alloc ∧
    (l.foldl (fun s kv => statsAccum dps s kv.2) s).alloc
      ≤ (l.foldl (fun s kv => statsAccum dps s kv.2) s).mapped := by
  induction l generalizing s with
  | nil => exact ⟨h1, h2, h3, h4⟩
  | cons kv rest ih =>
    have hsz : kv.2.size ≤ kv.2.alloc_size :=
      MMap.wf_size_le_alloc_size _ (hwf kv (List.mem_cons_self _ _))
    simp only [List.foldl_cons]
    refine ih _ (fun x hx => hwf x (List.mem_cons_of_mem _ hx)) ?_ ?_ ?_ ?_ <;>
      · simp only [statsAccum]
        split <;> (dsimp only) <;> omega

/-- The statistics loop over a registry of well-formed segments satisfies the
class-split identities and the mapped-covers-alloc inequality. -/
theorem statsOf_inv (dps : Nat) (l : List (Nat × MMap)) (hwf : ∀ kv ∈ l, kv.2.wf) :
    (statsOf dps l).default_segments + (statsOf dps l).huge_segments
        = (statsOf dps l).segments ∧
    (statsOf dps l).default_mapped + (statsOf dps l).huge_mapped
        = (statsOf dps l).mapped ∧
    (statsOf dps l).default_alloc + (statsOf dps l).huge_alloc
        = (statsOf dps l).alloc ∧
    (statsOf dps l).alloc ≤ (statsOf dps l).mapped := by
  unfold statsOf
  exact statsFold_inv dps l HugeGlobalAllocatorStats.default hwf rfl rfl rfl (Nat.le_refl 0)

/-- The segment-count field of the snapshot comes from the stats loop. -/
theorem stats_snapshot_segments (dps : Nat) (m : MMapper) :
    (MMapper.stats_snapshot dps m).segments = (statsOf dps m.ptr_map).segments := by
  simp only [MMapper.stats_snapshot]
  split <;> rfl

/-- The allocated-bytes field of the snapshot comes from the stats loop. -/
theorem stats_snapshot_alloc (dps : Nat) (m : MMapper) :
    (MMapper.stats_snapshot dps m).alloc = (statsOf dps m.ptr_map).alloc := by
  simp only [MMapper.stats_snapshot]
  split <;> rfl

/-- The mapped-bytes field of the snapshot comes from the stats loop. -/
theorem stats_snapshot_mapped (dps : Nat) (m : MMapper) :
    (MMapper.stats_snapshot dps m).mapped = (statsOf dps m.ptr_map).mapped := by
  simp only [MMapper.stats_snapshot]
  split <;> rfl

/-- The per-class fields of the snapshot come from the stats loop. -/
theorem stats_snapshot_class_fields (dps : Nat) (m : MMapper) :
    (MMapper.stats_snapshot dps m).default_segments
        = (statsOf dps m.ptr_map).default_segments ∧
    (MMapper.stats_snapshot dps m).huge_segments
        = (statsOf dps m.ptr_map).huge_segments ∧
    (MMapper.stats_snapshot dps m).default_mapped
        = (statsOf dps m.ptr_map).default_mapped ∧
    (MMapper.stats_snapshot dps m).huge_mapped
        = (statsOf dps m.ptr_map).huge_mapped ∧
    (MMapper.stats_snapshot dps m).default_alloc
        = (statsOf dps m.ptr_map).default_alloc ∧
    (MMapper.stats_snapshot dps m).huge_alloc
        = (statsOf dps m.ptr_map).huge_alloc := by
  simp only [MMapper.stats_snapshot]
  split <;> exact ⟨rfl, rfl, rfl, rfl, rfl, rfl⟩

/-- The efficiency field of the snapshot, in terms of the stats loop. -/
theorem stats_snapshot_efficiency (dps : Nat) (m : MMapper) :
    (MMapper.stats_snapshot dps m).efficiency =
      if (statsOf dps m.ptr_map).mapped = 0 then 100
      else (statsOf dps m.ptr_map).alloc * 100 / (statsOf dps m.ptr_map).mapped := by
  simp only [MMapper.stats_snapshot]
  split <;> rfl

/-- Claim C5: when the new mapped size differs from the current one and the
OS remap fails, MMap::remap leaves the segment (base address, mapped size and
requested layout) completely unchanged and returns failure; when the new
mapped size equals the current one it succeeds without invoking the mremap
primitive. -/
theorem c5_remap_frame (m : MMap) (new_layout : Layout) (os : Option Nat) :
    (MMap.calc_alloc_size new_layout.size m.page_size ≠ m.alloc_size → os = none →
      MMap.remap m new_layout os = ⟨m, false, true⟩) ∧
    (MMap.calc_alloc_size new_layout.size m.page_size = m.alloc_size →
      (MMap.remap m new_layout os).ok = true ∧
        (MMap.remap m new_layout os).mremap_called = false) := by
  constructor
  · intro hne hos
    subst hos
    simp only [MMap.remap]
    split
    · rfl
    · rename_i h
      exact absurd (not_not.mp h).symm hne
  · intro heq
    simp only [MMap.remap]
    split
    · rename_i h
      exact absurd heq.symm h
    · exact ⟨rfl, rfl⟩

/-- Concrete segment used in the claim C5 witness: requested 2 MiB, mapped
2 MiB on huge pages. -/
def segW5 : MMap := ⟨4096, ⟨2 ^ 21, 8⟩, 2 ^ 21, 2 ^ 21⟩

/-- Witness for c5_remap_frame at concrete inputs: a failing grow to 6 MiB
leaves the segment untouched; a same-mapped-size resize succeeds without
calling mremap. -/
theorem c5_remap_frame_witness :
    (MMap.calc_alloc_size (3 * 2 ^ 21) segW5.page_size ≠ segW5.alloc_size ∧
      MMap.remap segW5 ⟨3 * 2 ^ 21, 8⟩ none = ⟨segW5, false, true⟩) ∧
    (MMap.calc_alloc_size 5 segW5.page_size = segW5.alloc_size ∧
      (MMap.remap segW5 ⟨5, 8⟩ (some 99)).ok = true ∧
      (MMap.remap segW5 ⟨5, 8⟩ (some 99)).mremap_called = false) :=
  ⟨⟨by decide, (c5_remap_frame segW5 ⟨3 * 2 ^ 21, 8⟩ none).1 (by decide) rfl⟩,
   ⟨by decide, (c5_remap_frame segW5 ⟨5, 8⟩ (some 99)).2 (by decide)⟩⟩

/-- Claim C9 counterexample: add_missed of exactly one megabyte to fresh
counters leaves missed_bytes equal to one megabyte, which is not strictly
below one megabyte (the source guards with a strict comparison). -/
theorem c9_missed_bytes_hits_mb :
    (MMapperStats.new.add_missed (1024 * 1024)).missed_bytes = 1024 * 1024 ∧
      ¬ (MMapperStats.new.add_missed (1024 * 1024)).missed_bytes < 1024 * 1024 := by
  decide

/-- Claim C9 amended: after every add_missed the remainder field missed_bytes
is at most one megabyte (the strict bound fails only at exactly one
megabyte). -/
theorem c9_missed_bytes_le_mb (s : MMapperStats) (bytes : Nat) :
    (s.add_missed bytes).missed_bytes ≤ 1024 * 1024 := by
  have hMB : MB = 1048576 := by norm_num [MB]
  simp only [MMapperStats.add_missed]
  split
  · rename_i h
    dsimp only
    have hdm := Nat.div_add_mod ((s.missed_bytes + bytes) % USIZE) MB
    have hml : (s.missed_bytes + bytes) % USIZE % MB < MB :=
      Nat.mod_lt _ (by omega)
    have hcomm : (s.missed_bytes + bytes) % USIZE / MB * MB
        = MB * ((s.missed_bytes + bytes) % USIZE / MB) := Nat.mul_comm _ _
    omega
  · rename_i h
    dsimp only
    omega

/-- Registry state used for the claim C1 evaluation: one huge-page segment of
requested size 3 MiB (hence 4 MiB mapped) at base 4096. -/
def mapperC1 : MMapper :=
  ⟨[(4096, ⟨4096, ⟨3 * 2 ^ 20, 8⟩, 2 ^ 22, 2 ^ 21⟩)], MMapperStats.new⟩

/-- Claim C1 evaluation at the failing input: shrinking the 3 MiB segment to
2 MiB while the in-place remap fails does increment the failed-resize counter,
allocate a fresh segment with the new layout, unmap the old segment and return
the new base pointer, but it copies the OLD requested size (3 MiB) rather than
min(old, new) = 2 MiB, into a replacement segment that only maps 2 MiB. -/
theorem c1_realloc_fallback_copies_old_size :
    (MMapper.realloc 4096 mapperC1 4096 ⟨2 ^ 21, 8⟩ none (MapOutcome.hugeAt 8192)).map
        (fun r => (r.ret, r.copied, r.unmapped, r.state.stats.remaps_failed,
          (lookupPtr 8192 r.state.ptr_map).map MMap.alloc_size))
      = some (8192, some (4096, 8192, 3 * 2 ^ 20), [4096], 1, some (2 ^ 21)) ∧
    ¬ 3 * 2 ^ 20 = min (3 * 2 ^ 20) (2 ^ 21) := by
  constructor
  · rfl
  · decide

/-- Facade with the one-megabyte threshold from the crate's own tests, used
for the claim C2 evaluation. -/
def allocC2 : HugeGlobalAllocator := ⟨MMapper.new, 1024 * 1024⟩

/-- Claim C2 evaluation at the failing input: a sub-threshold alloc_zeroed
issues a plain System.alloc call (and no System.alloc_zeroed call), while an
at-threshold alloc_zeroed dispatches identically to alloc. -/
theorem c2_alloc_zeroed_sub_threshold_uses_plain_alloc :
    (HugeGlobalAllocator.alloc_zeroed 4096 allocC2 ⟨16, 8⟩ MapOutcome.failed 7).map
        (fun r => r.sysEvents) = some [SysEvent.alloc ⟨16, 8⟩] ∧
    (HugeGlobalAllocator.alloc_zeroed 4096 allocC2 ⟨16, 8⟩ MapOutcome.failed 7).map
        (fun r => r.sysEvents.contains (SysEvent.allocZeroed ⟨16, 8⟩)) = some false ∧
    HugeGlobalAllocator.alloc_zeroed 4096 allocC2 ⟨2 ^ 20, 8⟩ (MapOutcome.hugeAt 4096) 0
      = HugeGlobalAllocator.alloc 4096 allocC2 ⟨2 ^ 20, 8⟩ (MapOutcome.hugeAt 4096) 0 := by
  exact ⟨by decide, by decide, rfl⟩

/-- Claim C4 counterexample: a zero threshold cannot even be established —
the constructor's assert (threshold at least one megabyte) makes construction
with 0 abort instead of disabling interception. -/
theorem c4_zero_threshold_impossible : HugeGlobalAllocator.new 0 = none := by
  decide

/-- Claim C4 amended: the threshold is fixed at construction time (there is no
set_threshold operation); every successfully constructed allocator has a
threshold of at least one megabyte, in particular nonzero, so huge-page
interception can never be disabled. -/
theorem c4_threshold_fixed_at_construction (t : Nat) (a : HugeGlobalAllocator)
    (h : HugeGlobalAllocator.new t = some a) :
    a.threshold = t ∧ 1024 * 1024 ≤ a.threshold ∧ a.threshold ≠ 0 := by
  unfold HugeGlobalAllocator.new at h
  split at h
  · rename_i hc
    cases h
    refine ⟨rfl, hc, ?_⟩
    show t ≠ 0
    omega
  · cases h

/-- Witness for c4_threshold_fixed_at_construction at the crate's own default
threshold of one megabyte. -/
theorem c4_threshold_fixed_witness :
    HugeGlobalAllocator.new (1024 * 1024)
        = some ⟨MMapper.new, 1024 * 1024⟩ ∧
    ((⟨MMapper.new, 1024 * 1024⟩ : HugeGlobalAllocator).threshold = 1024 * 1024 ∧
      1024 * 1024 ≤ (⟨MMapper.new, 1024 * 1024⟩ : HugeGlobalAllocator).threshold ∧
      (⟨MMapper.new, 1024 * 1024⟩ : HugeGlobalAllocator).threshold ≠ 0) :=
  ⟨by decide, c4_threshold_fixed_at_construction (1024 * 1024) _ (by decide)⟩

/-- Registry produced by a single 2 MiB huge-page allocation, with allocated
bytes equal to mapped bytes; used for the claim C6 counterexample. -/
def mapperC6 : MMapper := ⟨[(4096, ⟨4096, ⟨2 ^ 21, 8⟩, 2 ^ 21, 2 ^ 21⟩)], MMapperStats.new⟩

/-- Claim C6 counterexample: a reachable registry (one exact 2 MiB huge-page
allocation) has nonzero mapped bytes yet efficiency_percent equal to 100, so
efficiency 100 does not characterise an empty mapping. -/
theorem c6_efficiency_100_with_nonzero_mapped :
    MMapper.alloc 4096 MMapper.new ⟨2 ^ 21, 8⟩ (MapOutcome.hugeAt 4096)
        = some ⟨4096, mapperC6⟩ ∧
    (MMapper.stats_snapshot 4096 mapperC6).mapped ≠ 0 ∧
    (MMapper.stats_snapshot 4096 mapperC6).efficiency = 100 := by
  refine ⟨rfl, by decide, by decide⟩

/-- Claim C6 amended: efficiency_percent is 100 when mapped bytes is 0 and
floor(alloc * 100 / mapped) otherwise, and over registries of well-formed
segments it always lies in [0, 100]; mapped = 0 implies efficiency 100, but
the converse fails (efficiency is also 100 whenever alloc equals mapped). -/
theorem c6_efficiency_bounds (dps : Nat) (m : MMapper)
    (hwf : ∀ kv ∈ m.ptr_map, kv.2.wf) :
    (MMapper.stats_snapshot dps m).efficiency ≤ 100 ∧
    ((MMapper.stats_snapshot dps m).mapped = 0 →
      (MMapper.stats_snapshot dps m).efficiency = 100) ∧
    ((MMapper.stats_snapshot dps m).mapped ≠ 0 →
      (MMapper.stats_snapshot dps m).efficiency =
        (MMapper.stats_snapshot dps m).alloc * 100
          / (MMapper.stats_snapshot dps m).mapped) := by
  have hle := (statsOf_inv dps m.ptr_map hwf).2.2.2
  rw [stats_snapshot_efficiency, stats_snapshot_mapped, stats_snapshot_alloc]
  by_cases hm : (statsOf dps m.ptr_map).mapped = 0
  · rw [if_pos hm]
    exact ⟨Nat.le_refl 100, fun _ => rfl, fun hne => absurd hm hne⟩
  · rw [if_neg hm]
    have h0 : 0 < (statsOf dps m.ptr_map).mapped := Nat.pos_of_ne_zero hm
    have hdiv : (statsOf dps m.ptr_map).alloc * 100 / (statsOf dps m.ptr_map).mapped
        ≤ 100 := by
      calc (statsOf dps m.ptr_map).alloc * 100 / (statsOf dps m.ptr_map).mapped
          ≤ (statsOf dps m.ptr_map).mapped * 100 / (statsOf dps m.ptr_map).mapped :=
            Nat.div_le_div_right (Nat.mul_le_mul_right _ hle)
        _ = 100 := Nat.mul_div_cancel_left 100 h0
    exact ⟨hdiv, fun hz => absurd hz hm, fun _ => rfl⟩

/-- Witness for c6_efficiency_bounds at the concrete reachable registry
mapperC6. -/
theorem c6_efficiency_bounds_witness :
    (∀ kv ∈ mapperC6.ptr_map, kv.2.wf) ∧
    (MMapper.stats_snapshot 4096 mapperC6).efficiency ≤ 100 :=
  ⟨by decide, (c6_efficiency_bounds 4096 mapperC6 (by decide)).1⟩

/-- Two-segment registry (one huge-backed, one default-backed) used for the
claim C7 witness. -/
def mapperC7 : MMapper :=
  ⟨[(4096, ⟨4096, ⟨2 ^ 21, 8⟩, 2 ^ 21, 2 ^ 21⟩),
    (65536, ⟨65536, ⟨2 ^ 20 + 3, 8⟩, 2 ^ 20 + 4096, 4096⟩)], MMapperStats.new⟩

/-- Claim C7: in every snapshot over well-formed segments, the per-class
segment counts, mapped bytes and allocated bytes sum to the respective
totals, and mapped bytes never under-cover allocated bytes. -/
theorem c7_stats_class_sums (dps : Nat) (m : MMapper)
    (hwf : ∀ kv ∈ m.ptr_map, kv.2.wf) :
    (MMapper.stats_snapshot dps m).default_segments
        + (MMapper.stats_snapshot dps m).huge_segments
      = (MMapper.stats_snapshot dps m).segments ∧
    (MMapper.stats_snapshot dps m).default_mapped
        + (MMapper.stats_snapshot dps m).huge_mapped
      = (MMapper.stats_snapshot dps m).mapped ∧
    (MMapper.stats_snapshot dps m).default_alloc
        + (MMapper.stats_snapshot dps m).huge_alloc
      = (MMapper.stats_snapshot dps m).alloc ∧
    (MMapper.stats_snapshot dps m).alloc ≤ (MMapper.stats_snapshot dps m).mapped := by
  obtain ⟨e1, e2, e3, e4, e5, e6⟩ := stats_snapshot_class_fields dps m
  rw [e1, e2, e3, e4, e5, e6, stats_snapshot_segments, stats_snapshot_alloc,
    stats_snapshot_mapped]
  exact statsOf_inv dps m.ptr_map hwf

/-- Witness for c7_stats_class_sums at the concrete two-segment registry. -/
theorem c7_stats_class_sums_witness :
    (∀ kv ∈ mapperC7.ptr_map, kv.2.wf) ∧
    ((MMapper.stats_snapshot 4096 mapperC7).default_segments
        + (MMapper.stats_snapshot 4096 mapperC7).huge_segments
      = (MMapper.stats_snapshot 4096 mapperC7).segments ∧
    (MMapper.stats_snapshot 4096 mapperC7).default_mapped
        + (MMapper.stats_snapshot 4096 mapperC7).huge_mapped
      = (MMapper.stats_snapshot 4096 mapperC7).mapped ∧
    (MMapper.stats_snapshot 4096 mapperC7).default_alloc
        + (MMapper.stats_snapshot 4096 mapperC7).huge_alloc
      = (MMapper.stats_snapshot 4096 mapperC7).alloc ∧
    (MMapper.stats_snapshot 4096 mapperC7).alloc
      ≤ (MMapper.stats_snapshot 4096 mapperC7).mapped) :=
  ⟨by decide, c7_stats_class_sums 4096 mapperC7 (by decide)⟩

/-- add_missed never touches the pointer map. -/
theorem add_missed_ptr_map (m : MMapper) (b : Nat) :
    (MMapper.add_missed m b).ptr_map = m.ptr_map := rfl

/-- A successful MMapper::alloc returns the base pointer of a segment that was
fresh and is now at the head of the pointer map. -/
theorem mapper_alloc_shape (dps : Nat) (m : MMapper) (layout : Layout)
    (o : MapOutcome) (ar : MapperAllocResult)
    (h : MMapper.alloc dps m layout o = some ar) :
    ∃ mm : MMap, ar.ret = mm.ptr ∧
      ar.state.ptr_map = (mm.ptr, mm) :: m.ptr_map ∧
      lookupPtr mm.ptr m.ptr_map = none := by
  simp only [MMapper.alloc] at h
  cases ho : MMap.new dps layout o with
  | none => rw [ho] at h; cases h
  | some mmap =>
    rw [ho] at h
    dsimp only at h
    have hptr : (if mmap.is_default_page_size dps then
        MMapper.add_missed m layout.size else m).ptr_map = m.ptr_map := by
      split <;> rfl
    cases hadd : MMapper.map_add
        (if mmap.is_default_page_size dps then MMapper.add_missed m layout.size else m)
        mmap with
    | none => rw [hadd] at h; cases h
    | some m2 =>
      rw [hadd] at h
      cases h
      simp only [MMapper.map_add] at hadd
      rw [hptr] at hadd
      split at hadd
      · cases hadd
      · rename_i hlk
        cases hadd
        refine ⟨mmap, rfl, rfl, ?_⟩
        exact Option.not_isSome_iff_eq_none.mp hlk

/-- MMapper::dealloc when the key heads the pointer map. -/
theorem mapper_dealloc_head (ms : MMapper) (k : Nat) (mm : MMap)
    (l : List (Nat × MMap)) (h : ms.ptr_map = (k, mm) :: l) :
    MMapper.dealloc ms k = ⟨true, { ms with ptr_map := l }, [mm.ptr]⟩ := by
  simp [MMapper.dealloc, MMapper.map_remove, h, lookupPtr, removeKey]

/-- MMapper::dealloc when the key is absent from the pointer map. -/
theorem mapper_dealloc_miss (ms : MMapper) (k : Nat)
    (h : lookupPtr k ms.ptr_map = none) :
    MMapper.dealloc ms k = ⟨false, ms, []⟩ := by
  simp [MMapper.dealloc, MMapper.map_remove, h]

/-- MMapper::dealloc when the key is present in the pointer map. -/
theorem mapper_dealloc_hit (ms : MMapper) (k : Nat) (mm : MMap)
    (h : lookupPtr k ms.ptr_map = some mm) :
    MMapper.dealloc ms k
      = ⟨true, { ms with ptr_map := removeKey k ms.ptr_map }, [mm.ptr]⟩ := by
  simp [MMapper.dealloc, MMapper.map_remove, h]

/-- Keys not occurring in the map look up to none. -/
theorem lookupPtr_eq_none_of_not_mem (k : Nat) (l : List (Nat × MMap))
    (h : k ∉ l.map Prod.fst) : lookupPtr k l = none := by
  induction l with
  | nil => rfl
  | cons kv rest ih =>
    simp only [List.map_cons, List.mem_cons] at h
    push_neg at h
    simp only [lookupPtr]
    rw [if_neg fun he => h.1 he.symm]
    exact ih h.2

/-- With unique keys, removing a key makes it look up to none. -/
theorem lookupPtr_removeKey_self (k : Nat) (l : List (Nat × MMap))
    (h : (l.map Prod.fst).Nodup) : lookupPtr k (removeKey k l) = none := by
  induction l with
  | nil => rfl
  | cons kv rest ih =>
    simp only [List.map_cons, List.nodup_cons] at h
    simp only [removeKey]
    by_cases hk : kv.1 = k
    · rw [if_pos hk]
      subst hk
      exact lookupPtr_eq_none_of_not_mem _ _ h.1
    · rw [if_neg hk]
      simp only [lookupPtr]
      rw [if_neg hk]
      exact ih h.2

/-- Claim C3: for every constructed allocator (threshold at least 1 MiB), the
facade's alloc routes to the registry (observable as making no system
allocator call) exactly when the threshold is nonzero and the requested size
is at least the threshold; with the 1 MiB threshold, allocating 1 MiB - 1
bytes leaves the segment count unchanged and allocating exactly 1 MiB
increases it by exactly one. -/
theorem c3_alloc_dispatch (dps : Nat) (a : HugeGlobalAllocator) (layout : Layout)
    (osMap : MapOutcome) (sysRet : Nat) (res : FacadeResult)
    (hthr : 1024 * 1024 ≤ a.threshold)
    (hres : HugeGlobalAllocator.alloc dps a layout osMap sysRet = some res) :
    (res.sysEvents = [] ↔ (a.threshold ≠ 0 ∧ a.threshold ≤ layout.size)) ∧
    (a.threshold = 1024 * 1024 → layout.size = 1024 * 1024 - 1 →
      (HugeGlobalAllocator.stats dps res.state).segments
        = (HugeGlobalAllocator.stats dps a).segments) ∧
    (a.threshold = 1024 * 1024 → layout.size = 1024 * 1024 →
      (HugeGlobalAllocator.stats dps res.state).segments
        = (HugeGlobalAllocator.stats dps a).segments + 1) := by
  simp only [HugeGlobalAllocator.alloc] at hres
  by_cases hsz : layout.size ≥ a.threshold
  · rw [if_pos hsz] at hres
    cases hma : MMapper.alloc dps a.mapper layout osMap with
    | none => rw [hma] at hres; cases hres
    | some ar =>
      rw [hma] at hres
      cases hres
      obtain ⟨mm, hret, hmap, hfresh⟩ := mapper_alloc_shape dps a.mapper layout osMap ar hma
      refine ⟨⟨fun _ => ⟨by omega, hsz⟩, fun _ => rfl⟩, ?_, ?_⟩
      · intro ht hsize
        exact absurd hsz (by omega)
      · intro ht hsize
        show (MMapper.stats_snapshot dps ar.state).segments
          = (MMapper.stats_snapshot dps a.mapper).segments + 1
        rw [stats_snapshot_segments, stats_snapshot_segments, statsOf_segments,
          statsOf_segments, hmap]
        simp
  · rw [if_neg hsz] at hres
    cases hres
    refine ⟨⟨fun h => ?_, fun h => absurd h.2 hsz⟩, fun _ _ => rfl, fun ht hsize => ?_⟩
    · exact absurd h (by simp)
    · exact absurd (show a.threshold ≤ layout.size by omega) hsz

/-- The concrete result of allocating exactly 1 MiB through the facade in the
claim C3 witness: one huge-page segment mapping 2 MiB. -/
def resW3 : FacadeResult :=
  ⟨4096, ⟨⟨[(4096, ⟨4096, ⟨1024 * 1024, 8⟩, 2 ^ 21, 2 ^ 21⟩)], MMapperStats.new⟩,
    1024 * 1024⟩, [], [], none⟩

/-- Witness for c3_alloc_dispatch: an exact-threshold 1 MiB allocation on the
fresh allocator routes to the registry and raises the segment count from 0
to 1. -/
theorem c3_alloc_dispatch_witness :
    1024 * 1024 ≤ allocC2.threshold ∧
    HugeGlobalAllocator.alloc 4096 allocC2 ⟨1024 * 1024, 8⟩ (MapOutcome.hugeAt 4096) 0
      = some resW3 ∧
    ((resW3.sysEvents = [] ↔ (allocC2.threshold ≠ 0 ∧ allocC2.threshold ≤ 1024 * 1024)) ∧
     (allocC2.threshold = 1024 * 1024 → 1024 * 1024 = 1024 * 1024 - 1 →
       (HugeGlobalAllocator.stats 4096 resW3.state).segments
         = (HugeGlobalAllocator.stats 4096 allocC2).segments) ∧
     (allocC2.threshold = 1024 * 1024 → 1024 * 1024 = 1024 * 1024 →
       (HugeGlobalAllocator.stats 4096 resW3.state).segments
         = (HugeGlobalAllocator.stats 4096 allocC2).segments + 1)) :=
  ⟨by decide, by decide,
    c3_alloc_dispatch 4096 allocC2 ⟨1024 * 1024, 8⟩ (MapOutcome.hugeAt 4096) 0 resW3
      (by decide) (by decide)⟩

/-- Claim C8: for every layout, a facade alloc followed by a facade dealloc of
the returned pointer (with the same layout) restores the snapshot's segment
count and allocated bytes to their values before the pair of calls, provided
the returned pointer was not already a registry key before the alloc. -/
theorem c8_alloc_dealloc_roundtrip (dps : Nat) (a : HugeGlobalAllocator)
    (layout : Layout) (osMap : MapOutcome) (sysRet : Nat) (res : FacadeResult)
    (hres : HugeGlobalAllocator.alloc dps a layout osMap sysRet = some res)
    (hfresh : lookupPtr res.ret a.mapper.ptr_map = none) :
    (HugeGlobalAllocator.stats dps
        (HugeGlobalAllocator.dealloc res.state res.ret layout).state).segments
      = (HugeGlobalAllocator.stats dps a).segments ∧
    (HugeGlobalAllocator.stats dps
        (HugeGlobalAllocator.dealloc res.state res.ret layout).state).alloc
      = (HugeGlobalAllocator.stats dps a).alloc := by
  simp only [HugeGlobalAllocator.alloc] at hres
  by_cases hsz : layout.size ≥ a.threshold
  · rw [if_pos hsz] at hres
    cases hma : MMapper.alloc dps a.mapper layout osMap with
    | none => rw [hma] at hres; cases hres
    | some ar =>
      rw [hma] at hres
      cases hres
      obtain ⟨mm, hret, hmap, _⟩ := mapper_alloc_shape dps a.mapper layout osMap ar hma
      have hd := mapper_dealloc_head ar.state mm.ptr mm a.mapper.ptr_map hmap
      show (HugeGlobalAllocator.stats dps
          (HugeGlobalAllocator.dealloc { a with mapper := ar.state } ar.ret layout).state).segments
        = _ ∧ _
      rw [hret]
      simp only [HugeGlobalAllocator.dealloc, hd]
      constructor
      · rw [HugeGlobalAllocator.stats, HugeGlobalAllocator.stats,
          stats_snapshot_segments, stats_snapshot_segments]
        rfl
      · rw [HugeGlobalAllocator.stats, HugeGlobalAllocator.stats,
          stats_snapshot_alloc, stats_snapshot_alloc]
        rfl
  · rw [if_neg hsz] at hres
    cases hres
    have hd := mapper_dealloc_miss a.mapper sysRet hfresh
    simp only [HugeGlobalAllocator.dealloc, hd]
    exact ⟨rfl, rfl⟩

/-- The concrete result of allocating 2 MiB on default pages through the
facade, used in the claim C8 witness (a missed huge allocation of two whole
megabytes is recorded). -/
def resW8 : FacadeResult :=
  ⟨4096, ⟨⟨[(4096, ⟨4096, ⟨2 * 2 ^ 20, 8⟩, 2 ^ 21, 4096⟩)], ⟨1, 0, 2, 0⟩⟩,
    1024 * 1024⟩, [], [], none⟩

/-- Witness for c8_alloc_dealloc_roundtrip: allocating 2 MiB (which lands on
default pages) then deallocating it restores segment count and allocated
bytes. -/
theorem c8_alloc_dealloc_roundtrip_witness :
    HugeGlobalAllocator.alloc 4096 allocC2 ⟨2 * 2 ^ 20, 8⟩ (MapOutcome.defaultAt 4096) 0
      = some resW8 ∧
    lookupPtr resW8.ret allocC2.mapper.ptr_map = none ∧
    ((HugeGlobalAllocator.stats 4096
        (HugeGlobalAllocator.dealloc resW8.state resW8.ret ⟨2 * 2 ^ 20, 8⟩).state).segments
      = (HugeGlobalAllocator.stats 4096 allocC2).segments ∧
     (HugeGlobalAllocator.stats 4096
        (HugeGlobalAllocator.dealloc resW8.state resW8.ret ⟨2 * 2 ^ 20, 8⟩).state).alloc
      = (HugeGlobalAllocator.stats 4096 allocC2).alloc) :=
  ⟨by decide, by decide,
    c8_alloc_dealloc_roundtrip 4096 allocC2 ⟨2 * 2 ^ 20, 8⟩ (MapOutcome.defaultAt 4096) 0
      resW8 (by decide) (by decide)⟩

/-- Claim C10: in the facade's realloc, when the old pointer is
registry-managed and the new size is below the threshold, a failing system
allocation (null return, modelled as sysRet = 0) still removes the old
segment from the registry and unmaps it; the call returns null with no bytes
copied, so the pre-call allocation is not preserved on this error. -/
theorem c10_shrink_with_failed_sys_alloc_destroys_old (dps : Nat)
    (a : HugeGlobalAllocator) (old_ptr : Nat) (old_layout : Layout)
    (new_size : Nat) (new_layout : Layout) (mm : MMap)
    (osRemap : Option Nat) (osMap : MapOutcome)
    (hlayout : Layout.from_size_align new_size old_layout.align = some new_layout)
    (hlk : lookupPtr old_ptr a.mapper.ptr_map = some mm)
    (hkey : mm.ptr = old_ptr)
    (hnodup : (a.mapper.ptr_map.map Prod.fst).Nodup)
    (hbelow : new_size < a.threshold) :
    ∃ res : FacadeResult,
      HugeGlobalAllocator.realloc dps a old_ptr old_layout new_size osRemap osMap 0
        = some res ∧
      res.ret = 0 ∧ res.copied = none ∧ res.unmapped = [old_ptr] ∧
      res.sysEvents = [SysEvent.alloc new_layout] ∧
      lookupPtr old_ptr res.state.mapper.ptr_map = none := by
  have hman : a.mapper.is_managed_ptr old_ptr = true := by
    simp [MMapper.is_managed_ptr, hlk]
  have hdr := mapper_dealloc_hit a.mapper old_ptr mm hlk
  refine ⟨⟨0, { a with mapper :=
      { a.mapper with ptr_map := removeKey old_ptr a.mapper.ptr_map } },
    [SysEvent.alloc new_layout], [mm.ptr], none⟩, ?_, rfl, rfl, ?_, rfl, ?_⟩
  · simp only [HugeGlobalAllocator.realloc, hlayout]
    rw [if_pos hman, if_neg (show ¬ new_size ≥ a.threshold by omega)]
    simp [hdr]
  · rw [hkey]
  · exact lookupPtr_removeKey_self old_ptr _ hnodup

/-- Facade holding one managed 2 MiB huge-page segment, used for the claim
C10 witness. -/
def allocW10 : HugeGlobalAllocator :=
  ⟨⟨[(4096, ⟨4096, ⟨2 ^ 21, 8⟩, 2 ^ 21, 2 ^ 21⟩)], MMapperStats.new⟩, 1024 * 1024⟩

/-- Witness for c10_shrink_with_failed_sys_alloc_destroys_old: shrinking the
managed 2 MiB segment to 1 KiB while the system allocator returns null still
unmaps the segment and empties the registry. -/
theorem c10_shrink_with_failed_sys_alloc_witness :
    Layout.from_size_align 1024 8 = some ⟨1024, 8⟩ ∧
    lookupPtr 4096 allocW10.mapper.ptr_map
        = some ⟨4096, ⟨2 ^ 21, 8⟩, 2 ^ 21, 2 ^ 21⟩ ∧
    (allocW10.mapper.ptr_map.map Prod.fst).Nodup ∧
    1024 < allocW10.threshold ∧
    (∃ res : FacadeResult,
      HugeGlobalAllocator.realloc 4096 allocW10 4096 ⟨2 ^ 21, 8⟩ 1024 none
          MapOutcome.failed 0 = some res ∧
      res.ret = 0 ∧ res.copied = none ∧ res.unmapped = [4096] ∧
      res.sysEvents = [SysEvent.alloc ⟨1024, 8⟩] ∧
      lookupPtr 4096 res.state.mapper.ptr_map = none) :=
  ⟨by decide, by decide, by decide, by decide,
    c10_shrink_with_failed_sys_alloc_destroys_old 4096 allocW10 4096 ⟨2 ^ 21, 8⟩ 1024
      ⟨1024, 8⟩ ⟨4096, ⟨2 ^ 21, 8⟩, 2 ^ 21, 2 ^ 21⟩ none MapOutcome.failed
      (by decide) (by decide) rfl (by decide) (by decide)⟩
